import Mathlib

/-!
Verification of the refresh-and-presentation core of the solar dashboard
(`static/script.js`): the fixed-resolution time-series aligner feeding the
chart, the connection status machine, the countdown timer, the auto-scroll
controller, the grid KPI computation, the plant-status table rendering, and
the per-cycle state effects of `fetchLiveData`.

The JavaScript is embedded shallowly: each DOM-free computation becomes a
Lean function, stateful code becomes explicit state passing over structures
holding the script's top-level mutable variables, numeric values are
rationals, timestamps (`Date.now()` milliseconds) are integers, and absent /
non-array JSON fields are modelled by `Option` or a dedicated field type.
-/

namespace SolarDashboard

/-- Constant `UPDATE_INTERVAL_MS = 5 * 60 * 1000` (script.js line 81). -/
def UPDATE_INTERVAL_MS : Int := 5 * 60 * 1000

/-- JavaScript `String(n).padStart(2, '0')` for a natural number, as used by the label
and time formatting helpers. -/
def padTwo (n : Nat) : String :=
  if n < 10 then "0" ++ toString n else toString n

/-- Function `generateFullDayXAxis()` (script.js lines 65-76): labels `"00:00"`,
`"00:05"`, ..., `"23:55"` plus the end-of-day marker `"24:00"`. -/
def generateFullDayXAxis : List String :=
  ((List.range 24).flatMap fun h =>
    (List.range 12).map fun i => padTwo h ++ ":" ++ padTwo (i * 5)) ++ ["24:00"]

/-- A JSON field expected to hold an array: it can be missing (or falsy),
present but not an array, or an actual array of numbers.  The chart guard
`data.chart.production && Array.isArray(data.chart.production)` accepts
exactly the `arr` case. -/
inductive ChartField where
  | missing
  | nonArray
  | arr (xs : List ℚ)
deriving DecidableEq

/-- Projection `ChartField.asArray` returns the list exactly when the chart guard
accepts the field. -/
def ChartField.asArray : ChartField → Option (List ℚ)
  | .arr xs => some xs
  | _ => none

/-- The `data.chart` payload (fields read in script.js lines 387-403). -/
structure ChartPayload where
  production : ChartField
  consumption : ChartField
  self_consumption : ChartField
  surplus : ChartField
  x_axis : Option (List String)
deriving DecidableEq

/-- The rendered chart: `energyChart.data.labels` and the four dataset
arrays; `none` inside a dataset is the JavaScript `null` no-data marker. -/
structure ChartView where
  labels : List String
  productionData : List (Option ℚ)
  consumptionData : List (Option ℚ)
  selfConsumptionData : List (Option ℚ)
  surplusData : List (Option ℚ)
deriving DecidableEq

/-- The chart-update block of `fetchLiveData` (script.js lines 387-424):
if all four data fields pass the guard, slice each to
`currentLength = x_axis ? x_axis.length : 0`, then push `null` onto all
four padded arrays while `paddedProduction.length < fullLabels.length`;
otherwise the previously rendered chart is left untouched. -/
def updateChart (chart? : Option ChartPayload) (view : ChartView) : ChartView :=
  match chart? with
  | none => view
  | some c =>
    match c.production.asArray, c.consumption.asArray,
          c.self_consumption.asArray, c.surplus.asArray with
    | some prod, some cons, some selfc, some surp =>
      let fullLabels := generateFullDayXAxis
      let currentLength := match c.x_axis with
        | some xs => xs.length
        | none => 0
      let trimmedProduction := prod.take currentLength
      let trimmedConsumption := cons.take currentLength
      let trimmedSelfConsumption := selfc.take currentLength
      let trimmedSurplus := surp.take currentLength
      -- the while loop runs until `paddedProduction` reaches the label count,
      -- pushing one `null` per iteration onto each of the four arrays
      let padN := fullLabels.length - trimmedProduction.length
      { labels := fullLabels
        productionData := trimmedProduction.map some ++ List.replicate padN none
        consumptionData := trimmedConsumption.map some ++ List.replicate padN none
        selfConsumptionData := trimmedSelfConsumption.map some ++ List.replicate padN none
        surplusData := trimmedSurplus.map some ++ List.replicate padN none }
    | _, _, _, _ => view

theorem generateFullDayXAxis_length : generateFullDayXAxis.length = 289 := by
  simp [generateFullDayXAxis, Function.comp_def]

/-- Shape lemma for one aligned dataset: taking `k` values, wrapping them in
`some` and padding with `m = 289 - k` copies of `none` yields a 289-entry
list that is verbatim on `[0, k)` and `none` on `[k, 289)`. -/
theorem padded_facts (l : List ℚ) (k m : Nat) (hl : k ≤ l.length) (hk : k ≤ 289)
    (hm : m = 289 - (l.take k).length) :
    (((l.take k).map some ++ List.replicate m (none : Option ℚ)).length = 289) ∧
    (∀ i, i < k → ((l.take k).map some ++ List.replicate m (none : Option ℚ))[i]? =
      (l[i]?).map some) ∧
    (∀ i, k ≤ i → i < 289 →
      ((l.take k).map some ++ List.replicate m (none : Option ℚ))[i]? = some none) := by
  have htake : (l.take k).length = k := by
    simp [List.length_take]
    omega
  have hlen : ((l.take k).map some).length = k := by
    rw [List.length_map, htake]
  rw [htake] at hm
  refine ⟨?_, ?_, ?_⟩
  · simp [hlen, hm]
    omega
  · intro i hi
    rw [List.getElem?_append, if_pos (by rw [hlen]; exact hi), List.getElem?_map,
      List.getElem?_take, if_pos hi]
  · intro i hki hi
    rw [List.getElem?_append, if_neg (by rw [hlen]; omega), hlen,
      List.getElem?_replicate, if_pos (by omega)]

/-- Expression `data.chart.x_axis ? data.chart.x_axis.length : 0` (script.js line 397). -/
def chartK : Option (List String) → Nat
  | some xs => xs.length
  | none => 0

/-- Unfolding of `updateChart` on a payload that passes the four-array
guard. -/
theorem updateChart_valid_eq (prod cons selfc surp : List ℚ)
    (xA : Option (List String)) (view : ChartView) :
    updateChart (some ⟨.arr prod, .arr cons, .arr selfc, .arr surp, xA⟩) view =
      { labels := generateFullDayXAxis
        productionData := (prod.take (chartK xA)).map some ++
          List.replicate (generateFullDayXAxis.length - (prod.take (chartK xA)).length) none
        consumptionData := (cons.take (chartK xA)).map some ++
          List.replicate (generateFullDayXAxis.length - (prod.take (chartK xA)).length) none
        selfConsumptionData := (selfc.take (chartK xA)).map some ++
          List.replicate (generateFullDayXAxis.length - (prod.take (chartK xA)).length) none
        surplusData := (surp.take (chartK xA)).map some ++
          List.replicate (generateFullDayXAxis.length - (prod.take (chartK xA)).length) none } := by
  cases xA <;> rfl

/-- C2: for every chart payload passing the four-array guard, with
`k = xs.length ≤ 289` and all four data lists of length ≥ `k`, the aligner
produces four datasets of exactly 289 entries, verbatim (wrapped in `some`)
on indices `[0, k)` and the no-data marker `none` on `[k, 289)`. -/
theorem aligner_alignment (prod cons selfc surp : List ℚ) (xs : List String)
    (view : ChartView) (hk : xs.length ≤ 289)
    (hp : xs.length ≤ prod.length) (hc : xs.length ≤ cons.length)
    (hs : xs.length ≤ selfc.length) (hu : xs.length ≤ surp.length) :
    ((updateChart (some ⟨.arr prod, .arr cons, .arr selfc, .arr surp, some xs⟩)
        view).productionData.length = 289 ∧
     (updateChart (some ⟨.arr prod, .arr cons, .arr selfc, .arr surp, some xs⟩)
        view).consumptionData.length = 289 ∧
     (updateChart (some ⟨.arr prod, .arr cons, .arr selfc, .arr surp, some xs⟩)
        view).selfConsumptionData.length = 289 ∧
     (updateChart (some ⟨.arr prod, .arr cons, .arr selfc, .arr surp, some xs⟩)
        view).surplusData.length = 289) ∧
    (∀ i, i < xs.length →
      (updateChart (some ⟨.arr prod, .arr cons, .arr selfc, .arr surp, some xs⟩)
        view).productionData[i]? = (prod[i]?).map some ∧
      (updateChart (some ⟨.arr prod, .arr cons, .arr selfc, .arr surp, some xs⟩)
        view).consumptionData[i]? = (cons[i]?).map some ∧
      (updateChart (some ⟨.arr prod, .arr cons, .arr selfc, .arr surp, some xs⟩)
        view).selfConsumptionData[i]? = (selfc[i]?).map some ∧
      (updateChart (some ⟨.arr prod, .arr cons, .arr selfc, .arr surp, some xs⟩)
        view).surplusData[i]? = (surp[i]?).map some) ∧
    (∀ i, xs.length ≤ i → i < 289 →
      (updateChart (some ⟨.arr prod, .arr cons, .arr selfc, .arr surp, some xs⟩)
        view).productionData[i]? = some none ∧
      (updateChart (some ⟨.arr prod, .arr cons, .arr selfc, .arr surp, some xs⟩)
        view).consumptionData[i]? = some none ∧
      (updateChart (some ⟨.arr prod, .arr cons, .arr selfc, .arr surp, some xs⟩)
        view).selfConsumptionData[i]? = some none ∧
      (updateChart (some ⟨.arr prod, .arr cons, .arr selfc, .arr surp, some xs⟩)
        view).surplusData[i]? = some none) := by
  rw [updateChart_valid_eq]
  dsimp only [chartK]
  rw [generateFullDayXAxis_length]
  have hpt : (prod.take xs.length).length = xs.length := by
    rw [List.length_take]
    omega
  have Hp := padded_facts prod xs.length (289 - (prod.take xs.length).length) hp hk rfl
  have Hc := padded_facts cons xs.length (289 - (prod.take xs.length).length) hc hk
    (by rw [hpt, List.length_take]; omega)
  have Hs := padded_facts selfc xs.length (289 - (prod.take xs.length).length) hs hk
    (by rw [hpt, List.length_take]; omega)
  have Hu := padded_facts surp xs.length (289 - (prod.take xs.length).length) hu hk
    (by rw [hpt, List.length_take]; omega)
  exact ⟨⟨Hp.1, Hc.1, Hs.1, Hu.1⟩,
    fun i hi => ⟨Hp.2.1 i hi, Hc.2.1 i hi, Hs.2.1 i hi, Hu.2.1 i hi⟩,
    fun i hki hi => ⟨Hp.2.2 i hki hi, Hc.2.2 i hki hi, Hs.2.2 i hki hi, Hu.2.2 i hki hi⟩⟩

/-- Witness for C2 at a concrete payload with `k = 2`. -/
theorem aligner_alignment_witness :
    (updateChart (some ⟨.arr [1, 2], .arr [3, 4], .arr [5, 6], .arr [7, 8],
        some ["00:00", "00:05"]⟩)
      ⟨[], [], [], [], []⟩).productionData.length = 289 :=
  (aligner_alignment [1, 2] [3, 4] [5, 6] [7, 8] ["00:00", "00:05"]
    ⟨[], [], [], [], []⟩ (by decide) (by decide) (by decide) (by decide) (by decide)).1.1

/-- C3: a chart payload in which any of the four required arrays is missing
or not array-typed leaves the rendered chart exactly as it was — no partial
update of labels or any dataset. -/
theorem chart_atomicity (c : ChartPayload) (view : ChartView)
    (h : c.production.asArray = none ∨ c.consumption.asArray = none ∨
      c.self_consumption.asArray = none ∨ c.surplus.asArray = none) :
    updateChart (some c) view = view := by
  obtain ⟨p, q, r, s, xA⟩ := c
  cases p <;> cases q <;> cases r <;> cases s <;>
    first
    | rfl
    | simp [ChartField.asArray] at h

/-- Witness for C3: payload with `production` missing leaves a previously
rendered chart untouched. -/
theorem chart_atomicity_witness :
    updateChart (some ⟨.missing, .arr [1], .arr [2], .arr [3], some ["00:00"]⟩)
      ⟨["00:00"], [some 9], [some 9], [some 9], [some 9]⟩ =
      ⟨["00:00"], [some 9], [some 9], [some 9], [some 9]⟩ :=
  chart_atomicity ⟨.missing, .arr [1], .arr [2], .arr [3], some ["00:00"]⟩
    ⟨["00:00"], [some 9], [some 9], [some 9], [some 9]⟩ (Or.inl rfl)

/-- C10: when all four data arrays are present and array-typed but `x_axis`
is absent, the chart IS updated: the valid-so-far length is taken as 0, so
every dataset becomes 289 copies of the no-data marker, erasing whatever
was previously drawn. -/
theorem chart_noXAxis_clears (prod cons selfc surp : List ℚ) (view : ChartView) :
    updateChart (some ⟨.arr prod, .arr cons, .arr selfc, .arr surp, none⟩) view =
      ⟨generateFullDayXAxis, List.replicate 289 none, List.replicate 289 none,
        List.replicate 289 none, List.replicate 289 none⟩ := by
  rw [updateChart_valid_eq]
  dsimp only [chartK]
  rw [generateFullDayXAxis_length]
  simp only [List.take_zero, List.map_nil, List.nil_append, List.length_nil, Nat.sub_zero]

/-- The connection-tracking globals (script.js lines 84-86):
`connectionStatus`, `failedFetchCount`, `lastSuccessfulConnection`. -/
structure ConnState where
  connectionStatus : String
  failedFetchCount : Nat
  lastSuccessfulConnection : Option Int
deriving DecidableEq

/-- Initial values of the connection globals: status `'unknown'`, zero
failures, no successful connection yet. -/
def initialConnState : ConnState :=
  { connectionStatus := "unknown", failedFetchCount := 0, lastSuccessfulConnection := none }

/-- Function `updateConnectionStatus(success)` (script.js lines 442-473).  The three
booleans model the presence of the `update-widget`, `connection-indicator`
and `connection-text` DOM elements: if any is absent the function returns
before touching any state.  `now` is the clock reading used for
`new Date()`.  The class/text writes on the widget are external render
effects and are not part of the returned state. -/
def updateConnectionStatus (widgetPresent indicatorPresent textPresent : Bool)
    (success : Bool) (now : Int) (s : ConnState) : ConnState :=
  if !widgetPresent || !indicatorPresent || !textPresent then s
  else if success then
    { connectionStatus := "connected", failedFetchCount := 0,
      lastSuccessfulConnection := some now }
  else
    { connectionStatus := "disconnected", failedFetchCount := s.failedFetchCount + 1,
      lastSuccessfulConnection := s.lastSuccessfulConnection }

/-- Iterated transition: `n` consecutive failure outcomes applied to the connection machine
(with the rendering surface present). -/
def applyFailures (now : Int) : Nat → ConnState → ConnState
  | 0, s => s
  | n + 1, s => applyFailures now n (updateConnectionStatus true true true false now s)

theorem applyFailures_count (now : Int) (n : Nat) (s : ConnState) :
    (applyFailures now n s).failedFetchCount = s.failedFetchCount + n := by
  induction n generalizing s with
  | zero => rfl
  | succ n ih =>
    rw [applyFailures, ih]
    simp [updateConnectionStatus]
    omega

theorem applyFailures_status (now : Int) (n : Nat) (s : ConnState) (hn : 0 < n) :
    (applyFailures now n s).connectionStatus = "disconnected" := by
  induction n generalizing s with
  | zero => omega
  | succ n ih =>
    rw [applyFailures]
    rcases Nat.eq_zero_or_pos n with h0 | hpos
    · subst h0
      rfl
    · exact ih _ hpos

/-- C4: with the rendering surface present, `N ≥ 1` consecutive failures
starting from the initial state leave `failedFetchCount = N` and status
`'disconnected'`; a single success from any prior state resets the counter
to 0, sets status `'connected'` and stamps the success time. -/
theorem connection_machine_spec (n : Nat) (hn : 0 < n) (now now2 : Int) (s : ConnState) :
    (applyFailures now n initialConnState).failedFetchCount = n ∧
    (applyFailures now n initialConnState).connectionStatus = "disconnected" ∧
    (updateConnectionStatus true true true true now2 s).failedFetchCount = 0 ∧
    (updateConnectionStatus true true true true now2 s).connectionStatus = "connected" ∧
    (updateConnectionStatus true true true true now2 s).lastSuccessfulConnection = some now2 := by
  refine ⟨?_, applyFailures_status now n initialConnState hn, rfl, rfl, rfl⟩
  rw [applyFailures_count]
  simp [initialConnState]

/-- Witness for C4 at `n = 3` after a prior mixed history. -/
theorem connection_machine_spec_witness :
    (applyFailures 1000 3 initialConnState).failedFetchCount = 3 ∧
    (applyFailures 1000 3 initialConnState).connectionStatus = "disconnected" ∧
    (updateConnectionStatus true true true true 2000
      ⟨"disconnected", 7, some 5⟩).failedFetchCount = 0 ∧
    (updateConnectionStatus true true true true 2000
      ⟨"disconnected", 7, some 5⟩).connectionStatus = "connected" ∧
    (updateConnectionStatus true true true true 2000
      ⟨"disconnected", 7, some 5⟩).lastSuccessfulConnection = some 2000 :=
  connection_machine_spec 3 (by decide) 1000 2000 ⟨"disconnected", 7, some 5⟩

/-- C9: if any of the three required DOM elements is absent,
`updateConnectionStatus` returns without mutating any of the connection
globals, on both success and failure outcomes. -/
theorem connection_status_frame (w i t success : Bool) (now : Int) (s : ConnState)
    (h : w = false ∨ i = false ∨ t = false) :
    updateConnectionStatus w i t success now s = s := by
  rcases h with h | h | h <;> subst h <;> simp [updateConnectionStatus]

/-- Witness for C9: missing connection-text element on a success outcome. -/
theorem connection_status_frame_witness :
    updateConnectionStatus true true false true 42 ⟨"unknown", 5, none⟩ =
      ⟨"unknown", 5, none⟩ :=
  connection_status_frame true true false true 42 ⟨"unknown", 5, none⟩
    (Or.inr (Or.inr rfl))

/-- JavaScript `v.toFixed(2)` for a non-negative rational: round to the nearest
hundredth, half away from zero, and render with exactly two decimals. -/
def toFixed2 (q : ℚ) : String :=
  let cents := (Int.floor (q * 100 + 1 / 2)).toNat
  toString (cents / 100) ++ "." ++ padTwo (cents % 100)

/-- The grid KPI block of `fetchLiveData` (script.js lines 218-241):
`gridValNum = production - consumption`; non-negative gives label
`"🔌 A Injetar na Rede"` with `gridValNum.toFixed(2)`, negative gives
`"🔌 A Consumir da Rede"` with `Math.abs(gridValNum).toFixed(2)`.
Returns (label text, value text). -/
def gridKPI (production consumption : ℚ) : String × String :=
  let gridValNum := production - consumption
  if 0 ≤ gridValNum then
    ("🔌 A Injetar na Rede", toFixed2 gridValNum)
  else
    ("🔌 A Consumir da Rede", toFixed2 |gridValNum|)

/-- C5: the grid KPI is computed from production − consumption; when
production exceeds consumption the label reads "A Injetar na Rede" with the
difference to two decimals (5.2 and 3.1 give "2.10"), and when consumption
exceeds production the label reads "A Consumir da Rede" with the absolute
difference to two decimals (1.0 and 4.0 give "3.00"). -/
theorem gridKPI_spec (p c : ℚ) :
    (c < p → gridKPI p c = ("🔌 A Injetar na Rede", toFixed2 (p - c))) ∧
    (p < c → gridKPI p c = ("🔌 A Consumir da Rede", toFixed2 (c - p))) ∧
    gridKPI (26 / 5) (31 / 10) = ("🔌 A Injetar na Rede", "2.10") ∧
    gridKPI 1 4 = ("🔌 A Consumir da Rede", "3.00") := by
  refine ⟨?_, ?_, by norm_num [gridKPI, toFixed2, padTwo]; decide,
    by norm_num [gridKPI, toFixed2, padTwo]; decide⟩
  · intro h
    rw [gridKPI]
    simp only [sub_nonneg, (le_of_lt h), if_pos]
  · intro h
    rw [gridKPI]
    rw [if_neg (by simp only [sub_nonneg, not_le]; exact h), abs_sub_comm,
      abs_of_nonneg (by linarith)]

/-- Witness for C5 at production 5.2, consumption 3.1. -/
theorem gridKPI_spec_witness :
    gridKPI (26 / 5) (31 / 10) = ("🔌 A Injetar na Rede", toFixed2 (26 / 5 - 31 / 10)) :=
  (gridKPI_spec (26 / 5) (31 / 10)).1 (by norm_num)

/-- One entry of `data.statuses` (fields read in script.js lines 300-356).
`pinstalled` and `last_data_time` are optional; `grid` is signed. -/
structure PlantStatus where
  name : String
  pinstalled : Option ℚ
  production : ℚ
  consumption : ℚ
  grid : ℚ
  surplus : ℚ
  status_icon : String
  last_data_time : Option String
deriving DecidableEq

/-- The `formatValue` arrow function (script.js lines 308-312). -/
def formatValue (value : ℚ) (className : String) (showZero : Bool) : String :=
  if value = 0 ∧ showZero = false then "<span class=\"zero-value\">--</span>"
  else if value = 0 then "<span class=\"zero-value\">" ++ toFixed2 value ++ "</span>"
  else "<span class=\"" ++ className ++ "\">" ++ toFixed2 value ++ "</span>"

/-- Split a character list at every occurrence of the separator `c`;
auxiliary for `splitChar`. -/
def splitCharAux (c : Char) : List Char → List (List Char)
  | [] => [[]]
  | ch :: rest =>
    let r := splitCharAux c rest
    if ch = c then [] :: r
    else
      match r with
      | [] => [[ch]]
      | hd :: tl => (ch :: hd) :: tl

/-- JavaScript `s.split(c)` for a single-character separator: splits at
every occurrence, keeping empty pieces (so `''.split(' ')` is `['']`). -/
def splitChar (c : Char) (s : String) : List String :=
  (splitCharAux c s.toList).map String.mk

/-- The `timestampDisplay` computation (script.js lines 314-329): a falsy
`last_data_time` keeps `"--"`; otherwise the text is split on a space, and
when both the first two parts are non-empty the date part is re-ordered as
`DD/MM/YYYY` (missing dash-separated pieces print as `undefined`, as the
unchecked destructuring does); otherwise the raw string is shown. -/
def formatPlantTimestamp : Option String → String
  | none => "--"
  | some t =>
    if t = "" then "--"
    else
      let parts := splitChar ' ' t
      let datePart := parts.getD 0 ""
      let timePart := parts.getD 1 ""
      if datePart ≠ "" ∧ timePart ≠ "" then
        let dparts := splitChar '-' datePart
        let y := dparts.getD 0 "undefined"
        let m := dparts.getD 1 "undefined"
        let d := dparts.getD 2 "undefined"
        d ++ "/" ++ m ++ "/" ++ y ++ " " ++ timePart
      else t

/-- The per-plant table row (script.js lines 300-356), as the list of the
eight `<td>` cell contents.  A critical status icon (`"🔴"`) renders every
numeric column as the `"--"` placeholder; otherwise `gridConsumption =
Math.max(0, plant.grid)` and the numeric columns go through `formatValue`
(and `pinstalled`, being truthiness-checked, shows `"--"` when absent or
zero). -/
def renderRow (plant : PlantStatus) : List String :=
  let gridConsumption := max 0 plant.grid
  let timestampDisplay := formatPlantTimestamp plant.last_data_time
  let isCritical := plant.status_icon = "🔴"
  if isCritical then
    ["<strong>" ++ plant.name ++ "</strong>", "--", "--", "--", "--", "--",
      timestampDisplay, plant.status_icon]
  else
    ["<strong>" ++ plant.name ++ "</strong>",
      (match plant.pinstalled with
        | some v => if v = 0 then "--" else toFixed2 v
        | none => "--"),
      formatValue plant.production "prod-value" true,
      formatValue gridConsumption "grid-value" false,
      formatValue plant.consumption "cons-value" true,
      formatValue plant.surplus "surplus-value" false,
      timestampDisplay, plant.status_icon]

/-- C6: a plant whose status icon is critical renders every numeric column
(installed power, production, grid, consumption, surplus) as the `"--"`
placeholder — never a zero — while the name, timestamp and status icon keep
their real content. -/
theorem critical_row_placeholders (plant : PlantStatus)
    (h : plant.status_icon = "🔴") :
    renderRow plant = ["<strong>" ++ plant.name ++ "</strong>", "--", "--", "--",
      "--", "--", formatPlantTimestamp plant.last_data_time, plant.status_icon] := by
  simp [renderRow, h]

/-- Witness for C6: a critical plant with non-zero telemetry still renders
only placeholders in the numeric columns. -/
theorem critical_row_placeholders_witness :
    renderRow ⟨"Edificio A", some 10, 5, 3, 2, 1, "🔴", some "2026-01-15 14:30"⟩ =
      ["<strong>Edificio A</strong>", "--", "--", "--", "--", "--",
        "15/01/2026 14:30", "🔴"] := by
  rw [critical_row_placeholders _ rfl]
  decide

/-- Render `remaining` milliseconds as `m:ss` (script.js lines 147-151):
`seconds = floor(remaining/1000)`, `minutes = floor(seconds/60)`,
`secs = seconds % 60` padded to two digits. -/
def formatCountdown (remaining : Int) : String :=
  let seconds := remaining / 1000
  let minutes := seconds / 60
  let secs := seconds % 60
  toString minutes ++ ":" ++ padTwo secs.toNat

/-- Severity class applied to the countdown element (script.js lines
154-160): `critical` under 30 s, `warning` under 60 s, none otherwise. -/
def countdownSeverity (remaining : Int) : String :=
  if remaining < 30000 then "critical"
  else if remaining < 60000 then "warning"
  else ""

/-- The countdown element's rendered text and severity class. -/
structure CountdownView where
  text : String
  cssClass : String
deriving DecidableEq

/-- One `updateCountdown()` tick (script.js lines 141-166), returning the
new `nextUpdateTime` and the rendered view.  It returns unchanged when the
countdown element is absent or `nextUpdateTime` is falsy (`null` or `0`).
Otherwise it renders `remaining = max(0, nextUpdateTime - now)` and, when
`remaining` reached 0, calls `startCountdown()`, which sets
`nextUpdateTime = now + UPDATE_INTERVAL_MS` and immediately re-renders; the
restart is unfolded here, and cannot recurse further since the fresh
remaining is the full positive interval. -/
def updateCountdown (elemPresent : Bool) (now : Int) (nextUpdateTime : Option Int)
    (view : CountdownView) : Option Int × CountdownView :=
  match nextUpdateTime with
  | none => (none, view)
  | some t =>
    if !elemPresent || t == 0 then (some t, view)
    else
      let remaining := max 0 (t - now)
      let view1 : CountdownView :=
        { text := "Próxima: " ++ formatCountdown remaining
          cssClass := countdownSeverity remaining }
      if remaining ≤ 0 then
        let t2 := now + UPDATE_INTERVAL_MS
        let remaining2 := max 0 (t2 - now)
        (some t2,
          { text := "Próxima: " ++ formatCountdown remaining2
            cssClass := countdownSeverity remaining2 })
      else (some t, view1)

/-- C7: a countdown tick at which the remaining time `max(0, t - now)` has
reached 0 immediately re-derives a fresh deadline `now + UPDATE_INTERVAL_MS`
and renders the full five-minute interval, so the display never stays at
`0:00`. -/
theorem countdown_self_heal (now t : Int) (view : CountdownView)
    (ht : t ≠ 0) (hrem : max 0 (t - now) = 0) :
    (updateCountdown true now (some t) view).1 = some (now + UPDATE_INTERVAL_MS) ∧
    (updateCountdown true now (some t) view).2.text = "Próxima: 5:00" := by
  have hfmt : formatCountdown (max 0 UPDATE_INTERVAL_MS) = "5:00" := by decide
  simp [updateCountdown, ht, hrem, hfmt]

/-- Witness for C7 with the deadline two milliseconds in the past. -/
theorem countdown_self_heal_witness :
    (updateCountdown true 5 (some 3) ⟨"", ""⟩).1 = some (5 + UPDATE_INTERVAL_MS) ∧
    (updateCountdown true 5 (some 3) ⟨"", ""⟩).2.text = "Próxima: 5:00" :=
  countdown_self_heal 5 3 ⟨"", ""⟩ (by decide) (by decide)

/-- The auto-scroll globals (script.js lines 88-95).  `frameScheduled`
models whether `scrollAnimationFrame` holds a pending animation-frame
handle; `pendingEdgeResume` models the `setTimeout` continuation armed by
the edge-pause branch. -/
structure ScrollState where
  isScrolling : Bool
  scrollPaused : Bool
  scrollDirection : Int
  frameScheduled : Bool
  pendingEdgeResume : Bool
deriving DecidableEq

/-- Constant `scrollSpeed = 0.5` pixels per frame (script.js line 90). -/
def scrollSpeed : ℚ := 1 / 2

/-- Function `stopAutoScroll()` (script.js lines 663-669): force Idle and
cancel any pending frame. -/
def stopAutoScroll (s : ScrollState) : ScrollState :=
  { s with isScrolling := false, frameScheduled := false }

/-- Function `startAutoScroll()` (script.js lines 672-711).  `wrapperPresent`
models whether `.table-wrapper` resolves; `scrollHeight`/`clientHeight` are
the live measurements.  Any pending frame is cancelled first; without
scrollable overflow (`maxScroll ≤ 0`) the controller goes Idle and requests
no frame; otherwise it resets direction to down, clears the pause flag and
requests the first frame. -/
def startAutoScroll (wrapperPresent : Bool) (scrollHeight clientHeight : ℚ)
    (s : ScrollState) : ScrollState :=
  if !wrapperPresent then s
  else
    let s1 := { s with frameScheduled := false }
    let maxScroll := scrollHeight - clientHeight
    if maxScroll ≤ 0 then { s1 with isScrolling := false }
    else { s1 with isScrolling := true, scrollPaused := false,
                   scrollDirection := 1, frameScheduled := true }

/-- One invocation of the frame callback `autoScrollTable()` (script.js
lines 565-660), returning the new controller state and scroll offset.  It
returns immediately when the wrapper is absent, when not scrolling, when
paused, or when the content has no scrollable overflow.  Within threshold 2
of an edge it snaps the offset to the edge, cancels the pending frame,
marks the pause and arms the resume timeout; otherwise it advances the
offset by `scrollSpeed * scrollDirection` and schedules the next frame. -/
def autoScrollTable (wrapperPresent : Bool) (scrollHeight clientHeight scrollTop : ℚ)
    (s : ScrollState) : ScrollState × ℚ :=
  if !wrapperPresent then (s, scrollTop)
  else if !s.isScrolling then (s, scrollTop)
  else if s.scrollPaused then (s, scrollTop)
  else
    let maxScroll := scrollHeight - clientHeight
    if maxScroll ≤ 0 then (s, scrollTop)
    else
      let isAtTop := scrollTop ≤ 2
      let isAtBottom := scrollTop ≥ maxScroll - 2
      if isAtTop ∨ isAtBottom then
        let snapped := if isAtTop then 0 else maxScroll
        ({ s with scrollPaused := true, frameScheduled := false,
                  pendingEdgeResume := true }, snapped)
      else
        ({ s with frameScheduled := true }, scrollTop + scrollSpeed * s.scrollDirection)

/-- C8: starting auto-scroll on content without scrollable overflow enters
Idle (`isScrolling = false`) with no frame scheduled, and from Idle the
frame callback is a no-op, so the controller never leaves Idle without a
new start; starting on overflowing content resets direction to `+1`, clears
the pause flag, and schedules the first frame. -/
theorem autoscroll_start_idempotent (sh ch top : ℚ) (s : ScrollState) :
    (sh - ch ≤ 0 →
      (startAutoScroll true sh ch s).isScrolling = false ∧
      (startAutoScroll true sh ch s).frameScheduled = false) ∧
    (s.isScrolling = false →
      autoScrollTable true sh ch top s = (s, top)) ∧
    (0 < sh - ch →
      (startAutoScroll true sh ch s).isScrolling = true ∧
      (startAutoScroll true sh ch s).scrollPaused = false ∧
      (startAutoScroll true sh ch s).scrollDirection = 1 ∧
      (startAutoScroll true sh ch s).frameScheduled = true) := by
  refine ⟨fun h => ?_, fun h => ?_, fun h => ?_⟩
  · rw [startAutoScroll]
    simp [h]
  · rw [autoScrollTable]
    simp [h]
  · rw [startAutoScroll]
    simp [not_le.mpr h]

/-- Witness for C8: no overflow (`300 - 300 ≤ 0`), Idle preservation, and an
overflowing start (`500 - 300 > 0`). -/
theorem autoscroll_start_idempotent_witness :
    ((startAutoScroll true 300 300 ⟨true, true, -1, true, false⟩).isScrolling = false ∧
      (startAutoScroll true 300 300 ⟨true, true, -1, true, false⟩).frameScheduled = false) ∧
    autoScrollTable true 300 300 40 ⟨false, false, 1, false, false⟩ =
      (⟨false, false, 1, false, false⟩, 40) ∧
    (startAutoScroll true 500 300 ⟨false, true, -1, false, false⟩).isScrolling = true :=
  ⟨(autoscroll_start_idempotent 300 300 40 ⟨true, true, -1, true, false⟩).1 (by norm_num),
    (autoscroll_start_idempotent 300 300 40 ⟨false, false, 1, false, false⟩).2.1 rfl,
    ((autoscroll_start_idempotent 500 300 40 ⟨false, true, -1, false, false⟩).2.2
      (by norm_num)).1⟩

/-- The parsed `/api/live-data` body on a response without an `error`
field (fields read by the success path of `fetchLiveData`).  `none` in a
numeric field models an absent or non-numeric value, which
`Number(x) || 0` coerces to 0. -/
structure Snapshot where
  production : Option ℚ
  consumption : Option ℚ
  total_plants : Option ℚ
  last_updated : Option String
  alerts : List String
  statuses : List PlantStatus
  chart : Option ChartPayload
deriving DecidableEq

/-- The possible outcomes of one fetch: the request throws (transport
failure), the response is non-2xx (thrown and caught as well), the response
is 2xx but its JSON carries a truthy `error` field, or a usable body. -/
inductive FetchOutcome where
  | transportError
  | httpError (status : Nat)
  | payloadError
  | success (snap : Snapshot)
deriving DecidableEq

/-- The script state touched by one fetch cycle: the `updating` indicator
class, the countdown deadline `nextUpdateTime`, the connection globals, the
rendered chart, the rendered grid KPI and the rendered table rows. -/
structure DashState where
  updating : Bool
  nextUpdateTime : Option Int
  conn : ConnState
  chartView : ChartView
  gridKpiView : Option (String × String)
  tableRows : List (List String)
deriving DecidableEq

/-- One `fetchLiveData()` cycle (script.js lines 192-439) with the DOM
surface present, driven by the fetch outcome.  Every cycle first shows the
updating indicator.  A thrown error (transport or non-2xx) lands in the
catch block: connection failure, indicator hidden, countdown deadline
advanced.  A truthy `data.error` returns early after recording the
connection failure — the indicator stays on and the deadline is untouched.
A success records the connection success, renders the KPIs and table,
hides the indicator, advances the deadline and updates the chart. -/
def fetchCycle (outcome : FetchOutcome) (now : Int) (st : DashState) : DashState :=
  let st0 := { st with updating := true }
  match outcome with
  | .transportError =>
      { st0 with
        conn := updateConnectionStatus true true true false now st0.conn
        updating := false
        nextUpdateTime := some (now + UPDATE_INTERVAL_MS) }
  | .httpError _ =>
      { st0 with
        conn := updateConnectionStatus true true true false now st0.conn
        updating := false
        nextUpdateTime := some (now + UPDATE_INTERVAL_MS) }
  | .payloadError =>
      { st0 with conn := updateConnectionStatus true true true false now st0.conn }
  | .success snap =>
      { st0 with
        conn := updateConnectionStatus true true true true now st0.conn
        gridKpiView := some (gridKPI (snap.production.getD 0) (snap.consumption.getD 0))
        tableRows := snap.statuses.map renderRow
        updating := false
        nextUpdateTime := some (now + UPDATE_INTERVAL_MS)
        chartView := updateChart snap.chart st0.chartView }

/-- C1 fails on the code: a 2xx response whose payload carries a truthy
`error` field ends the cycle with the updating state still set and the
countdown deadline unchanged, unlike transport failures, HTTP failures and
successes, which all clear the indicator and advance the deadline to
`now + UPDATE_INTERVAL_MS`. -/
theorem fetchCycle_payloadError_no_reset (now : Int) (st : DashState)
    (snap : Snapshot) (status : Nat) :
    ((fetchCycle .payloadError now st).updating = true ∧
     (fetchCycle .payloadError now st).nextUpdateTime = st.nextUpdateTime) ∧
    ((fetchCycle .transportError now st).updating = false ∧
     (fetchCycle .transportError now st).nextUpdateTime =
       some (now + UPDATE_INTERVAL_MS)) ∧
    ((fetchCycle (.httpError status) now st).updating = false ∧
     (fetchCycle (.httpError status) now st).nextUpdateTime =
       some (now + UPDATE_INTERVAL_MS)) ∧
    ((fetchCycle (.success snap) now st).updating = false ∧
     (fetchCycle (.success snap) now st).nextUpdateTime =
       some (now + UPDATE_INTERVAL_MS)) :=
  ⟨⟨rfl, rfl⟩, ⟨rfl, rfl⟩, ⟨rfl, rfl⟩, ⟨rfl, rfl⟩⟩

end SolarDashboard
